import Mathlib

/-!
Shallow embedding of the Jinja2 template-rendering pipeline of
`confs/jinja2_interface.py` (repository `ufs_pyutils`), together with the
pieces of `confs/template_interface.py` (the marker catalog
`TMPL_ITEM_LIST`) that it consumes.

Strings are modelled as `List Char` (named `Str` below) so that every
operation reduces cleanly in the kernel.  Python string primitives
(`in`, `index`, slicing, `strip`, `split("\n")`, `replace`) are embedded as
executable functions with the exact Python semantics the source relies on.

The file system is a finite map from paths to file contents; a call to
`write_from_template` is embedded as a pure function from an initial file
system (plus the call arguments) to a final state consisting of the file
system, the caller's dictionary object (Python dictionaries are mutable and
shared with the caller), and an optional raised exception.

The Jinja2 library itself is an external collaborator; the pipeline is
parameterised by a `Backend` record (its static analyzer, its parser and
its renderer), and a concrete `jinja2Backend` models the flat
variable-substitution subset actually exercised, including Jinja2's default
`keep_trailing_newline=False` behaviour (a single trailing newline of the
template source is stripped before rendering).
-/

/-- Python strings, modelled as lists of characters. -/
abbrev Str := List Char

/-- Coerce a Lean string literal to the `Str` model. -/
def pys (s : String) : Str := s.data

/-- Boolean prefix test: `isPfx pat cs` is `true` iff `pat` is a prefix of
`cs` (used to embed Python substring search). -/
def isPfx : Str → Str → Bool
  | [], _ => true
  | _ :: _, [] => false
  | a :: as, b :: bs => a == b && isPfx as bs

/-- First occurrence of `pat` inside `cs`: returns the text before the
occurrence and the text after it (Python `str.find` / slicing combined).
For the empty pattern it matches at position 0, as in Python. -/
def splitFirst : Str → Str → Option (Str × Str)
  | [], pat => if pat.isEmpty then some ([], []) else none
  | c :: rest, pat =>
    if isPfx pat (c :: rest) then some ([], (c :: rest).drop pat.length)
    else (splitFirst rest pat).map (fun pr => (c :: pr.1, pr.2))

/-- Python `pat in cs` (substring containment). -/
def hasSub (cs pat : Str) : Bool := (splitFirst cs pat).isSome

/-- Python `cs.index(pat)`: index of the first occurrence, `none` when the
substring is absent (where CPython raises `ValueError`). -/
def firstIdx (cs pat : Str) : Option Nat :=
  (splitFirst cs pat).map (fun pr => pr.1.length)

/-- Python slice `cs[a:b]` for non-negative bounds. -/
def pySlice (cs : Str) (a b : Nat) : Str := (cs.drop a).take (b - a)

/-- Python `cs.strip()` (also `cs.rstrip().lstrip()`): remove leading and
trailing whitespace. -/
def pyStrip (cs : Str) : Str :=
  ((cs.dropWhile Char.isWhitespace).reverse.dropWhile Char.isWhitespace).reverse

/-- Python `cs.split("\n")`. -/
def splitNl : Str → List Str
  | [] => [[]]
  | c :: rest =>
    if c = '\n' then [] :: splitNl rest
    else
      match splitNl rest with
      | [] => [[c]]
      | l :: ls => (c :: l) :: ls

/-- Join a list of lines, appending `"\n"` to every line — the shape produced
by the source's loops `for line in lines: file.write(f"{line}\n")`. -/
def joinNl : List Str → Str
  | [] => []
  | l :: ls => l ++ '\n' :: joinNl ls

/-- Python `cs.replace(pat, rep)` for a non-empty `pat`: replace every
non-overlapping occurrence, scanning left to right.  (The source only ever
replaces non-empty marker strings.)  A fuel argument sidesteps the
termination argument; `fuel = cs.length + 1` always suffices. -/
def replaceSubAux : Nat → Str → Str → Str → Str
  | 0, cs, _, _ => cs
  | _ + 1, [], _, _ => []
  | fuel + 1, c :: rest, pat, rep =>
    if pat.isEmpty then c :: rest
    else if isPfx pat (c :: rest) then
      rep ++ replaceSubAux fuel ((c :: rest).drop pat.length) pat rep
    else c :: replaceSubAux fuel rest pat rep

/-- Python `cs.replace(pat, rep)` (non-empty `pat`). -/
def replaceSub (cs pat rep : Str) : Str := replaceSubAux (cs.length + 1) cs pat rep

/-- Membership of a string in a list of strings (Python `x in list`). -/
def memStr (v : Str) (l : List Str) : Bool := l.any (fun x => x == v)

/-- Dynamically-typed Python values as they occur in the template value
mappings exercised by the pipeline: strings and booleans.  (Numbers and
nested mappings also pass through the code unchanged, but no claim about
this module depends on them, so they are not represented.) -/
inductive Value where
  | vstr (s : Str)
  | vbool (b : Bool)
deriving DecidableEq, Repr

/-- Python `str(value)` as used when a value is interpolated into the
rendered output. -/
def valueText : Value → Str
  | .vstr s => s
  | .vbool true => pys "True"
  | .vbool false => pys "False"

/-- Modelled from the spec: `tools/parser_interface.f90_bool` is repository
code whose module is not part of the provided sources (only its unit tests
in `src/tools/tests/test_parser_interface.py` and an identical twin
`Template.f90_bool` in `src/confs/template_interface.py` are).  Per the
spec's §4.3 and those tests: `True → "T"`, `False → "F"`, any non-boolean
value is returned unaltered. -/
def f90bool : Value → Value
  | .vbool true => .vstr (pys "T")
  | .vbool false => .vstr (pys "F")
  | v => v

/-- The caller's `in_dict`: an insertion-ordered mapping from variable names
to values.  (Keys are plain strings; the tuple-key branch of
`_get_defvars`, which compares only the first tuple component, is a legacy
shape no claim exercises.) -/
abbrev Dict := List (Str × Value)

/-- Python dictionary lookup (keys of a dict are unique, so the first match
is the match). -/
def dictGet (d : Dict) (k : Str) : Option Value :=
  (d.find? (fun kv => kv.1 == k)).map (·.2)

/-- `_get_defvars` (confs/jinja2_interface.py, lines 227-265): the list of
keys of `in_dict`, in insertion order. -/
def getDefvars (d : Dict) : List Str := d.map (·.1)

/-- Exceptions that can escape the embedded code: the module's own taxonomy
error (`Jinja2InterfaceError`, carrying its message), a raw Python
`ValueError` (raised by `str.index` in the fallback scan), and any other
raw error (e.g. a missing template file). -/
inductive PyErr where
  | jinja2Error (msg : Str)
  | valueError (msg : Str)
  | otherError (msg : Str)
deriving DecidableEq, Repr

instance {ε α : Type} [DecidableEq ε] [DecidableEq α] : DecidableEq (Except ε α) :=
  fun a b =>
    match a, b with
    | .ok x, .ok y => if h : x = y then .isTrue (by rw [h]) else .isFalse (by simp [h])
    | .error x, .error y => if h : x = y then .isTrue (by rw [h]) else .isFalse (by simp [h])
    | .ok _, .error _ => .isFalse (by simp)
    | .error _, .ok _ => .isFalse (by simp)

/-- The file system: a finite map from paths to file contents. -/
abbrev FS := List (Str × Str)

/-- Look up a file's contents (`none` means the file does not exist). -/
def fsGet (fs : FS) (p : Str) : Option Str :=
  (fs.find? (fun e => e.1 == p)).map (·.2)

/-- Create or overwrite the file at path `p` (Python `open(p, "w")` followed
by writing `v`). -/
def fsSet (fs : FS) (p : Str) (v : Str) : FS :=
  (p, v) :: fs.filter (fun e => !(e.1 == p))

/-- Delete the file at path `p` (Python `os.unlink(p)`). -/
def fsDel (fs : FS) (p : Str) : FS :=
  fs.filter (fun e => !(e.1 == p))

/-- `TMPL_ITEM_LIST` (confs/template_interface.py, lines 72-73): the ordered
catalog of recognized non-canonical marker syntaxes, each a pattern string
with a single `%s` substitution slot.  (The `%%` sequences are literal
percent characters: the source never %-formats these strings, it only
splits them on `"%s"`.) -/
def TMPL_ITEM_LIST : List Str :=
  [pys "[@%s]", pys "\x7b@%s\x7d", pys "\x7b%%%s%%\x7d", pys "\x7b\x7b%% %s %%\x7d\x7d",
   pys "<%s>", pys "\x7b%% %s %%\x7d", pys "\x7b\x7b %s \x7d\x7d"]

/-- `item.split("%s")` as used by `_replace_tmplmarkers`: the (open, close)
literal pair of one catalog entry. -/
def tmplSplit (item : Str) : Str × Str :=
  match splitFirst item (pys "%s") with
  | some (o, c) => (o, c)
  | none => (item, [])

/-- The per-line body of `_replace_tmplmarkers` (confs/jinja2_interface.py,
lines 493-500): scan the catalog in order; the first entry whose open and
close literals both occur in the line wins, and the line has the *stripped*
open/close literals replaced by `"{{ "` / `" }}"`. -/
def normLine (line : Str) : Str :=
  match TMPL_ITEM_LIST.find? (fun item =>
      hasSub line (tmplSplit item).1 && hasSub line (tmplSplit item).2) with
  | none => line
  | some item =>
    replaceSub
      (replaceSub line (pyStrip (tmplSplit item).1) (pys "\x7b\x7b "))
      (pyStrip (tmplSplit item).2) (pys " \x7d\x7d")

/-- `_replace_tmplmarkers` (confs/jinja2_interface.py, lines 450-504) as a
text transform: split the template on `"\n"`, rewrite each line, and write
every resulting line followed by `"\n"` to the virtual file. -/
def replaceTmplMarkersText (content : Str) : Str :=
  joinNl ((splitNl content).map normLine)

/-- The line-selection predicate of the `skip_missing` rewrite
(confs/jinja2_interface.py, lines 606-611): a line is dropped iff
`any(mv for mv in missing if mv in line)` is truthy, i.e. iff some missing
variable name occurs in the line *and* that name is a non-empty string
(Python's `any` tests the truthiness of the yielded strings). -/
def dropLine (missing : List Str) (line : Str) : Bool :=
  missing.any (fun mv => !mv.isEmpty && hasSub line mv)

/-- The lines kept by the `skip_missing` rewrite. -/
def keptLines (content : Str) (missing : List Str) : List Str :=
  (splitNl content).filter (fun line => !dropLine missing line)

/-- The template text written back by the `skip_missing` rewrite
(confs/jinja2_interface.py, lines 601-612): every kept line followed by
`"\n"`. -/
def skipRewriteText (content : Str) (missing : List Str) : Str :=
  joinNl (keptLines content missing)

/-- The fallback textual scan of `_get_template_vars`
(confs/jinja2_interface.py, lines 421-442), one line at a time.  The
source's guard is `(start_str and stop_str in item) and ("or" not in item)`;
by Python operator precedence this is `(bool("{{") and ("}}" in item)) and
("or" not in item)`, i.e. only `"}}" in item` is tested (`start_str` is a
non-empty string, hence truthy).  On a selected line,
`item.index(start_str)` raises `ValueError` when `"{{"` is absent. -/
def fallbackLines : List Str → Except PyErr (List Str)
  | [] => .ok []
  | item :: rest =>
    if hasSub item (pys "\x7d\x7d") && !hasSub item (pys "or") then
      match firstIdx item (pys "\x7b\x7b") with
      | none => .error (.valueError (pys "substring not found"))
      | some start =>
        match firstIdx item (pys "\x7d\x7d") with
        | none => .error (.valueError (pys "substring not found"))
        | some stop =>
          (fallbackLines rest).map
            (fun vs => pyStrip (pySlice item (start + 2) stop) :: vs)
    else fallbackLines rest

/-- The Jinja2 back end as seen by this module: its static analyzer
(`meta.find_undeclared_variables` over `env.parse`), its template
parser/compiler (`env.get_template`), and its renderer
(`Template.render`).  The pipeline is stated over an arbitrary back end;
`jinja2Backend` below is the concrete model of the flat-substitution subset. -/
structure Backend where
  primaryVars : Str → List Str
  parseOk : Str → Bool
  parseErrMsg : Str → Str
  render : Str → Dict → Except Str Str

/-- `_get_template_vars` (confs/jinja2_interface.py, lines 387-444) on the
template's text: take the analyzer's variables; if it reports zero, run the
line-oriented fallback scan. -/
def getTemplateVars (B : Backend) (content : Str) : Except PyErr (List Str) :=
  let vs := B.primaryVars content
  if vs.length = 0 then fallbackLines (splitNl content)
  else .ok vs

/-- Message raised by `_find_missing_vars` for an empty `in_dict`
(confs/jinja2_interface.py, lines 192-196). -/
def emptyDictMsg : Str :=
  pys "The Python dictionary `in_dict` provided upon entry is empty. Aborting!!!"

/-- Python `", ".join(l)`. -/
def joinComma : List Str → Str
  | [] => []
  | [v] => v
  | v :: rest => v ++ (pys ", " ++ joinComma rest)

/-- The missing-variables message of `_find_missing_vars`
(confs/jinja2_interface.py, lines 210-216), including the `" Aborting!!!"`
suffix appended on the `fail_missing` branch.  Note that it names the
missing variables but not the template path. -/
def missingMsg (missing : List Str) : Str :=
  pys "The following Jinja2-templated variables have not been defined: "
    ++ (joinComma missing ++ pys ". Aborting!!!")

/-- `_find_missing_vars` (confs/jinja2_interface.py, lines 132-221) given
the template file's contents (`none` when the file does not exist, in which
case loading the template raises): raise on an empty dictionary, collect the
template variables, and compare them against the dictionary keys.  Under
`fail_missing` a non-empty missing list raises `Jinja2InterfaceError`;
otherwise it is only logged and returned. -/
def findMissingVars (B : Backend) (contentOpt : Option Str) (inDict : Dict)
    (failMissing : Bool) : Except PyErr (List Str) :=
  if inDict.isEmpty then .error (.jinja2Error emptyDictMsg)
  else
    match contentOpt with
    | none => .error (.otherError (pys "TemplateNotFound"))
    | some content =>
      match getTemplateVars B content with
      | .error e => .error e
      | .ok vs =>
        let compareVariables := getDefvars inDict
        let missing := vs.filter (fun v => !memStr v compareVariables)
        if !missing.isEmpty && failMissing then
          .error (.jinja2Error (missingMsg missing))
        else .ok missing

/-- The render-failure message of `write_from_template`
(confs/jinja2_interface.py, lines 624-627): it carries the output path and
the back end's error text. -/
def renderFailMsg (outputFile errText : Str) : Str :=
  pys "Rendering Jinja2-formatted file "
    ++ (outputFile ++ (pys " failed with error " ++ (errText ++ pys ". Aborting!!!")))

/-- The result of one `write_from_template` call: the final file system,
the caller's dictionary object (Python dictionaries are mutable, so the
caller observes any in-place update), and the exception, if one was
raised. -/
structure RunState where
  fs : FS
  dict : Dict
  err : Option PyErr
deriving DecidableEq, Repr

/-- The `try` block of `write_from_template` (confs/jinja2_interface.py,
lines 617-628): load and compile the template (errors here are wrapped but
happen before the output file is opened), then `open(output_file, "w")` —
which creates or truncates the file — and only then evaluate
`tmpl.render(...)`; a render error is wrapped into `Jinja2InterfaceError`
after the truncation has already happened. -/
def renderStage (B : Backend) (tmplPath outputFile : Str) (inDict : Dict)
    (fs : FS) : FS × Option PyErr :=
  match fsGet fs tmplPath with
  | none => (fs, some (.jinja2Error (renderFailMsg outputFile (pys "TemplateNotFound"))))
  | some content =>
    if B.parseOk content then
      let fsTrunc := fsSet fs outputFile []
      match B.render content inDict with
      | .ok out => (fsSet fsTrunc outputFile out, none)
      | .error e => (fsTrunc, some (.jinja2Error (renderFailMsg outputFile e)))
    else (fs, some (.jinja2Error (renderFailMsg outputFile (B.parseErrMsg content))))

/-- `write_from_template` (confs/jinja2_interface.py, lines 510-631).

`virtPath` models the fresh path produced by
`tools/fileio_interface.virtual_file()`.  Modelled from the spec: that
module is repository code not included in the provided sources; per the
spec's §5 the factory guarantees a unique path per call, so the path is
passed in explicitly and theorems state any required freshness.

Steps, in source order: (1) under `rpl_tmpl_mrks`, write the normalized
template to the virtual path and continue with that path; (2) under
`f90_bool`, replace every value of `in_dict` *in place* by its FORTRAN
boolean adaptation; (3) `_find_missing_vars`; (4) under `skip_missing`,
rewrite the template file in place, dropping lines that contain a missing
variable name; (5) the `try` block: compile, truncate the output file,
render, write; (6) only when all of this succeeded and
`rpl_tmpl_mrks or skip_missing`, delete the (possibly rewritten) template
file.  Any raised exception propagates immediately, leaving the side
effects performed so far in place.  (`tmpl.render(in_dict, env=os.environ)`
additionally binds the name `env` to the process environment; no claim
references it, and the concrete back end model does not consult it.) -/
def writeFromTemplate (B : Backend) (virtPath tmplPath outputFile : Str)
    (inDict : Dict) (failMissing rplTmplMrks f90Bool skipMissing : Bool)
    (fs0 : FS) : RunState :=
  -- Step 1: rpl_tmpl_mrks (lines 586-587).
  match (if rplTmplMrks then
           match fsGet fs0 tmplPath with
           | none => .error (PyErr.otherError (pys "FileNotFoundError"))
           | some content =>
             .ok (virtPath, fsSet fs0 virtPath (replaceTmplMarkersText content))
         else .ok (tmplPath, fs0) : Except PyErr (Str × FS)) with
  | .error e => ⟨fs0, inDict, some e⟩
  | .ok (tp, fs1) =>
    -- Step 2: f90_bool in-place value adaptation (lines 589-591).
    let dict1 := if f90Bool then inDict.map (fun kv => (kv.1, f90bool kv.2)) else inDict
    -- Step 3: _find_missing_vars (lines 593-597).
    match findMissingVars B (fsGet fs1 tp) dict1 failMissing with
    | .error e => ⟨fs1, dict1, some e⟩
    | .ok missing =>
      -- Step 4: skip_missing in-place rewrite (lines 601-612).
      match (if skipMissing then
               match fsGet fs1 tp with
               | none => .error (PyErr.otherError (pys "FileNotFoundError"))
               | some content => .ok (fsSet fs1 tp (skipRewriteText content missing))
             else .ok fs1 : Except PyErr FS) with
      | .error e => ⟨fs1, dict1, some e⟩
      | .ok fs2 =>
        -- Step 5: the try block (lines 617-628).
        match renderStage B tp outputFile dict1 fs2 with
        | (fs3, some e) => ⟨fs3, dict1, some e⟩
        | (fs3, none) =>
          -- Step 6: cleanup, on the success path only (lines 630-631).
          let fs4 := if rplTmplMrks || skipMissing then fsDel fs3 tp else fs3
          ⟨fs4, dict1, none⟩

/-- One trailing `"\n"` of the template source is stripped before
rendering: Jinja2's default `keep_trailing_newline=False` (the source
builds its `Environment` with defaults, confs/jinja2_interface.py line
299). -/
def stripNl (cs : Str) : Str :=
  match cs.reverse with
  | c :: r => if c = '\n' then r.reverse else cs
  | [] => cs

/-- A plain Jinja2 identifier: non-empty, letters/digits/underscores, not
starting with a digit. -/
def isIdent (cs : Str) : Bool :=
  match cs with
  | [] => false
  | c :: rest =>
    (c.isAlpha || c == '_')
      && rest.all (fun d => d.isAlphanum || d == '_')

/-- Well-formedness of a template in the flat subset: every `"{{"` opener is
followed by a `"}}"` closer.  An unclosed opener is a `TemplateSyntaxError`,
raised while the template is compiled (`env.get_template`), i.e. before the
output file is opened.  Statement (`{% %}`) and comment (`{# #}`) syntax is
outside the modelled subset: this check treats it as literal text, while
real Jinja2 lexes it (and e.g. raises `TemplateSyntaxError` on a malformed
statement), so statements about this model only quantify over templates
that contain neither `"{%"` nor `"{#"`. -/
def wellFormedAux : Nat → Str → Bool
  | 0, _ => false
  | fuel + 1, cs =>
    match splitFirst cs (pys "\x7b\x7b") with
    | none => true
    | some (_, rest) =>
      match splitFirst rest (pys "\x7d\x7d") with
      | none => false
      | some (_, rest2) => wellFormedAux fuel rest2

/-- Flat-subset substitution over the template body: literal text is copied;
each `{{ ... }}` region whose trimmed content is a plain identifier is
replaced by the string form of its value from the mapping, or by the empty
string when the name is unbound (Jinja2's default `Undefined` prints as
empty).  A region holding any other expression is modelled as a render-time
failure, as Jinja2 raises (e.g. `UndefinedError`) when such an expression
operates on an undefined name — the only way the claims exercise one.
`fuel = cs.length + 1` always suffices; each step consumes the region's
delimiters. -/
def substRegionsAux (d : Dict) : Nat → Str → Except Str Str
  | 0, _ => .error (pys "out of fuel")
  | fuel + 1, cs =>
    match splitFirst cs (pys "\x7b\x7b") with
    | none => .ok cs
    | some (pre, rest) =>
      match splitFirst rest (pys "\x7d\x7d") with
      | none => .error (pys "unexpected end of template")
      | some (expr, rest2) =>
        let name := pyStrip expr
        if isIdent name then
          let txt :=
            match dictGet d name with
            | some v => valueText v
            | none => []
          (substRegionsAux d fuel rest2).map (fun t => pre ++ txt ++ t)
        else .error (pys "UndefinedError: unable to evaluate " ++ name)

/-- `Template.render` in the flat subset: strip one trailing newline of the
source (default `keep_trailing_newline=False`), then substitute every
region. -/
def jinja2RenderText (content : Str) (d : Dict) : Except Str Str :=
  let body := stripNl content
  substRegionsAux d (body.length + 1) body

/-- The concrete Jinja2 back end for the flat variable-substitution subset.

Faithfulness domain: this model covers templates built from literal text
and `{{ ... }}` variable regions only.  Jinja2's statement (`{% ... %}`)
and comment (`{# ... #}`) syntax is outside the model — `parseOk` and
`render` pass such text through as literal characters, whereas the real
back end lexes it (a malformed statement such as `{% bork %}` raises
`TemplateSyntaxError` at compile time, and a comment is stripped from the
output).  Every universal theorem stated over this back end therefore
restricts its templates to ones containing none of `"{{"`, `"}}"`, `"{%"`
and `"{#"`; the concrete fixtures use only flat-subset syntax, on which the
model agrees with real Jinja2.

`primaryVars` models `meta.find_undeclared_variables(env.parse(tmpl))`
at confs/jinja2_interface.py line 417: the source passes the compiled
`Template` *object*, not its source text, to `env.parse`; Jinja2's lexer
coerces its argument with `str(...)`, which for a `Template` yields its
`repr` (`<Template 'name'>`), a text with no template syntax.  The analyzer
therefore reports zero variables for every template, and the fallback
textual scan always runs. -/
def jinja2Backend : Backend where
  primaryVars := fun _ => []
  parseOk := fun content => wellFormedAux (content.length + 1) content
  parseErrMsg := fun _ => pys "TemplateSyntaxError: unexpected end of template"
  render := jinja2RenderText

/-! ### Concrete test fixtures

The spec's concrete scenario (§8): the template
`"NAME1={{ NAME1 }}\nNAME2={{ NAME2 }}\n"` with the mappings
`{NAME1: "ham", NAME2: "eggs"}` and `{NAME1: "ham"}`, plus the smaller
fixtures used by the other claims.  Path names are arbitrary distinct
strings. -/

def jinja2TestTemplate : Str :=
  pys "NAME1=\x7b\x7b NAME1 \x7d\x7d\nNAME2=\x7b\x7b NAME2 \x7d\x7d\n"

def hamEggsDict : Dict :=
  [(pys "NAME1", .vstr (pys "ham")), (pys "NAME2", .vstr (pys "eggs"))]

def hamOnlyDict : Dict := [(pys "NAME1", .vstr (pys "ham"))]

def pVirt : Str := pys "virt.tmpl"

def pTmpl : Str := pys "tpath.tmpl"

def pOut : Str := pys "out.txt"

/-- A template whose only region holds a non-identifier expression over an
unbound name (`X + 1`): Jinja2 compiles it, but evaluating the expression at
render time raises (`UndefinedError`), after the output file has been
truncated. -/
def renderFailTemplate : Str := pys "\x7b\x7b X + 1 \x7d\x7d\n"

/-- A dictionary that defines none of the variables of the templates it is
used with. -/
def yDict : Dict := [(pys "Y", .vstr (pys "y"))]

/-- A template in the bracket-at marker dialect, normalized by
`_replace_tmplmarkers` to `"A={{ A }}\n\n"`. -/
def bracketTemplate : Str := pys "A=[@A]\n"

def bDict : Dict := [(pys "B", .vstr (pys "b"))]

/-- A line containing the close delimiter `"}}"` but no open delimiter:
the failing input of the fallback scan's operator-precedence slip. -/
def strayCloseTemplate : Str := pys "foo \x7d\x7d"

/-- A mapping holding a genuine boolean, for the `f90_bool` adaptation. -/
def boolDict : Dict := [(pys "X", .vbool true)]

def xBoolTemplate : Str := pys "A=\x7b\x7b X \x7d\x7d\n"

/-- Template with variables `A` and `B`; with `abDict` below, `B` is
missing while the *value* substituted for `A` is the text `"B"`. -/
def abTemplate : Str := pys "A=\x7b\x7b A \x7d\x7d\nB=\x7b\x7b B \x7d\x7d\n"

def abDict : Dict := [(pys "A", .vstr (pys "B"))]

def aliasTemplate : Str := pys "A=\x7b\x7b A \x7d\x7d"

def axDict : Dict := [(pys "A", .vstr (pys "x"))]

/-! ### Substring lemmas -/

theorem isPfx_refl (v : Str) : isPfx v v = true := by
  induction v with
  | nil => rfl
  | cons a as ih => simp [isPfx, ih]

theorem isPfx_append (p : Str) (b : Str) :
    ∀ a : Str, isPfx p a = true → isPfx p (a ++ b) = true := by
  induction p with
  | nil => intro a _; rfl
  | cons x xs ih =>
    intro a h
    cases a with
    | nil => simp [isPfx] at h
    | cons y ys =>
      simp [isPfx] at h ⊢
      exact ⟨h.1, ih ys h.2⟩

theorem hasSub_nil_pat (b : Str) : hasSub b [] = true := by
  cases b <;> simp [hasSub, splitFirst, isPfx, List.isEmpty]

theorem hasSub_cons (c : Char) (cs pat : Str) (h : hasSub cs pat = true) :
    hasSub (c :: cs) pat = true := by
  by_cases hp : isPfx pat (c :: cs) = true
  · simp [hasSub, splitFirst, hp]
  · simp only [hasSub, splitFirst] at h ⊢
    simp only [hp, if_neg, Bool.false_eq_true, if_false]
    cases hs : splitFirst cs pat with
    | none => rw [hs] at h; simp at h
    | some pr => simp

theorem hasSub_append_right (a b pat : Str) (h : hasSub b pat = true) :
    hasSub (a ++ b) pat = true := by
  induction a with
  | nil => simpa using h
  | cons c cs ih => exact hasSub_cons c (cs ++ b) pat ih

theorem hasSub_refl_append (v b : Str) : hasSub (v ++ b) v = true := by
  cases v with
  | nil => exact hasSub_nil_pat b
  | cons c vs =>
    have hp : isPfx (c :: vs) ((c :: vs) ++ b) = true :=
      isPfx_append (c :: vs) b (c :: vs) (isPfx_refl (c :: vs))
    simp [hasSub, splitFirst] at hp ⊢
    simp [hp]

theorem hasSub_refl (v : Str) : hasSub v v = true := by
  simpa using hasSub_refl_append v []

theorem hasSub_append_left (a b pat : Str) (h : hasSub a pat = true) :
    hasSub (a ++ b) pat = true := by
  induction a with
  | nil =>
    have : pat = [] := by
      by_contra hne
      simp [hasSub, splitFirst, List.isEmpty_iff, hne] at h
    subst this
    simpa using hasSub_nil_pat b
  | cons c cs ih =>
    by_cases hp : isPfx pat (c :: (cs ++ b)) = true
    · show (splitFirst (c :: (cs ++ b)) pat).isSome = true
      simp [splitFirst, hp]
    · have hcs : hasSub cs pat = true := by
        simp only [hasSub, splitFirst] at h
        have hp0 : isPfx pat (c :: cs) = false := by
          cases hx : isPfx pat (c :: cs) with
          | false => rfl
          | true => exact absurd (isPfx_append pat b (c :: cs) hx) hp
        simp only [hp0, Bool.false_eq_true, if_false] at h
        cases hs : splitFirst cs pat with
        | none => rw [hs] at h; simp at h
        | some pr => simp [hasSub, hs]
      exact hasSub_cons c (cs ++ b) pat (ih hcs)

/-- Any member of a joined `", "`-separated list occurs in the joined text. -/
theorem hasSub_joinComma (l : List Str) (v : Str) (h : v ∈ l) :
    hasSub (joinComma l) v = true := by
  induction l with
  | nil => cases h
  | cons x xs ih =>
    cases xs with
    | nil =>
      rcases List.mem_singleton.mp h with rfl
      simpa [joinComma] using hasSub_refl v
    | cons y ys =>
      rcases List.mem_cons.mp h with rfl | hmem
      · exact hasSub_append_left v (pys ", " ++ joinComma (y :: ys)) v (hasSub_refl v)
      · exact hasSub_append_right x (pys ", " ++ joinComma (y :: ys)) v
          (hasSub_append_right (pys ", ") (joinComma (y :: ys)) v (ih hmem))

/-- Every missing variable is named in the `_find_missing_vars` message. -/
theorem hasSub_missingMsg (missing : List Str) (v : Str) (h : v ∈ missing) :
    hasSub (missingMsg missing) v = true := by
  unfold missingMsg
  exact hasSub_append_right _ _ v
    (hasSub_append_left _ _ v (hasSub_joinComma missing v h))

/-- The render-failure message contains the output path. -/
theorem hasSub_renderFailMsg_path (outputFile errText : Str) :
    hasSub (renderFailMsg outputFile errText) outputFile = true := by
  unfold renderFailMsg
  exact hasSub_append_right _ _ _ (hasSub_refl_append outputFile _)

/-- The render-failure message contains the back end's error text. -/
theorem hasSub_renderFailMsg_err (outputFile errText : Str) :
    hasSub (renderFailMsg outputFile errText) errText = true := by
  unfold renderFailMsg
  exact hasSub_append_right _ _ _ (hasSub_append_right _ _ _
    (hasSub_append_right _ _ _ (hasSub_refl_append errText _)))

/-! ### Line-splitting lemmas -/

/-- The first line of `splitNl cs` is a prefix of `cs`. -/
theorem splitNl_head_prefix :
    ∀ (cs : Str) (l : Str) (ls : List Str), splitNl cs = l :: ls → ∃ b, cs = l ++ b := by
  intro cs
  induction cs with
  | nil =>
    intro l ls h
    simp [splitNl] at h
    exact ⟨[], by simp [h.1]⟩
  | cons c rest ih =>
    intro l ls h
    by_cases hc : c = '\n'
    · subst hc
      simp [splitNl] at h
      exact ⟨'\n' :: rest, by simp [← h.1]⟩
    · simp only [splitNl, if_neg hc] at h
      cases hr : splitNl rest with
      | nil => rw [hr] at h; simp at h; exact ⟨rest, by simp [← h.1]⟩
      | cons l' ls' =>
        rw [hr] at h
        simp at h
        obtain ⟨b, hb⟩ := ih l' ls' hr
        exact ⟨b, by simp [← h.1, hb]⟩

/-- Every line produced by `splitNl` occurs inside the original text. -/
theorem splitNl_mem_parts :
    ∀ (cs : Str) (line : Str), line ∈ splitNl cs → ∃ a b, cs = a ++ (line ++ b) := by
  intro cs
  induction cs with
  | nil =>
    intro line h
    simp [splitNl] at h
    exact ⟨[], [], by simp [h]⟩
  | cons c rest ih =>
    intro line h
    by_cases hc : c = '\n'
    · subst hc
      simp only [splitNl, if_pos rfl] at h
      rcases List.mem_cons.mp h with rfl | hmem
      · exact ⟨[], '\n' :: rest, by simp⟩
      · obtain ⟨a, b, hab⟩ := ih line hmem
        exact ⟨'\n' :: a, b, by simp [hab]⟩
    · simp only [splitNl, if_neg hc] at h
      cases hr : splitNl rest with
      | nil =>
        rw [hr] at h
        simp at h
        exact ⟨[], rest, by simp [h]⟩
      | cons l' ls' =>
        rw [hr] at h
        rcases List.mem_cons.mp h with rfl | hmem
        · obtain ⟨b, hb⟩ := splitNl_head_prefix rest l' ls' hr
          exact ⟨[], b, by simp [hb]⟩
        · have : line ∈ splitNl rest := by rw [hr]; exact List.mem_cons_of_mem l' hmem
          obtain ⟨a, b, hab⟩ := ih line this
          exact ⟨c :: a, b, by simp [hab]⟩

/-- A substring of a line of `cs` is a substring of `cs`. -/
theorem hasSub_of_mem_splitNl (cs line pat : Str) (hl : line ∈ splitNl cs)
    (h : hasSub line pat = true) : hasSub cs pat = true := by
  obtain ⟨a, b, hab⟩ := splitNl_mem_parts cs line hl
  rw [hab]
  exact hasSub_append_right a (line ++ b) pat (hasSub_append_left line b pat h)

/-! ### Fallback-scan, parser and renderer lemmas -/

/-- Lines without the close delimiter `"}}"` contribute nothing to the
fallback scan, and the scan succeeds. -/
theorem fallbackLines_ok_nil (lines : List Str)
    (h : ∀ line ∈ lines, hasSub line (pys "\x7d\x7d") = false) :
    fallbackLines lines = .ok [] := by
  induction lines with
  | nil => rfl
  | cons item rest ih =>
    have hi : hasSub item (pys "\x7d\x7d") = false := h item (List.mem_cons_self item rest)
    simp only [fallbackLines, hi, Bool.false_and, Bool.false_eq_true, if_false]
    exact ih (fun line hl => h line (List.mem_cons_of_mem item hl))

theorem splitFirst_none_of_not_hasSub (cs pat : Str) (h : hasSub cs pat = false) :
    splitFirst cs pat = none := by
  unfold hasSub at h
  cases hs : splitFirst cs pat with
  | none => rfl
  | some pr => rw [hs] at h; simp at h

/-- A text without the open delimiter renders to itself (flat subset). -/
theorem substRegionsAux_no_open (d : Dict) (n : Nat) (body : Str)
    (h : hasSub body (pys "\x7b\x7b") = false) :
    substRegionsAux d (n + 1) body = .ok body := by
  simp [substRegionsAux, splitFirst_none_of_not_hasSub body (pys "\x7b\x7b") h]

/-- A text without the open delimiter is well formed. -/
theorem wellFormedAux_no_open (n : Nat) (cs : Str)
    (h : hasSub cs (pys "\x7b\x7b") = false) :
    wellFormedAux (n + 1) cs = true := by
  simp [wellFormedAux, splitFirst_none_of_not_hasSub cs (pys "\x7b\x7b") h]

/-- `stripNl` either leaves the text alone or removes exactly one final
newline. -/
theorem stripNl_eq_or (cs : Str) : stripNl cs = cs ∨ cs = stripNl cs ++ ['\n'] := by
  unfold stripNl
  cases h : cs.reverse with
  | nil => exact Or.inl rfl
  | cons c r =>
    by_cases hc : c = '\n'
    · subst hc
      right
      simp only [if_pos rfl]
      have := congrArg List.reverse h
      simpa using this
    · left; simp [hc]

theorem hasSub_stripNl_false (cs pat : Str) (h : hasSub cs pat = false) :
    hasSub (stripNl cs) pat = false := by
  rcases stripNl_eq_or cs with h1 | h1
  · rw [h1]; exact h
  · cases hx : hasSub (stripNl cs) pat with
    | false => rfl
    | true =>
      have : hasSub cs pat = true := by
        rw [h1]; exact hasSub_append_left _ _ _ hx
      rw [this] at h; cases h

/-! ### File-system lemmas -/

theorem find?_filter_ne (l : FS) (p q : Str) (h : p ≠ q) :
    List.find? (fun e => e.1 == q) (l.filter (fun e => !(e.1 == p)))
      = List.find? (fun e => e.1 == q) l := by
  induction l with
  | nil => rfl
  | cons e es ih =>
    by_cases he : e.1 = p
    · have hq : (e.1 == q) = false := by
        refine beq_eq_false_iff_ne.mpr ?_
        rw [he]; exact h
      have hp : (e.1 == p) = true := beq_iff_eq.mpr he
      rw [List.filter_cons]
      simp only [hp, Bool.not_true, Bool.false_eq_true, if_false]
      rw [ih, List.find?_cons_of_neg]
      simp [hq]
    · have hp : (e.1 == p) = false := beq_eq_false_iff_ne.mpr he
      by_cases heq : e.1 = q
      · have hq : (e.1 == q) = true := beq_iff_eq.mpr heq
        rw [List.filter_cons]
        simp only [hp, Bool.not_false, if_true]
        rw [List.find?_cons_of_pos, List.find?_cons_of_pos] <;> simp [hq]
      · have hq : (e.1 == q) = false := beq_eq_false_iff_ne.mpr heq
        rw [List.filter_cons]
        simp only [hp, Bool.not_false, if_true]
        rw [List.find?_cons_of_neg, List.find?_cons_of_neg, ih] <;> simp [hq]

theorem fsGet_fsSet_self (fs : FS) (p v : Str) : fsGet (fsSet fs p v) p = some v := by
  simp [fsGet, fsSet, List.find?]

theorem fsGet_fsSet_ne (fs : FS) (p q v : Str) (h : p ≠ q) :
    fsGet (fsSet fs p v) q = fsGet fs q := by
  have hpq : (p == q) = false := by simpa using h
  simp [fsGet, fsSet, List.find?, hpq, find?_filter_ne fs p q h]

theorem fsGet_fsDel_self (fs : FS) (p : Str) : fsGet (fsDel fs p) p = none := by
  induction fs with
  | nil => rfl
  | cons e es ih =>
    by_cases he : e.1 = p
    · have hp : (e.1 == p) = true := beq_iff_eq.mpr he
      unfold fsDel at ih ⊢
      rw [List.filter_cons]
      simpa [hp] using ih
    · have hp : (e.1 == p) = false := beq_eq_false_iff_ne.mpr he
      unfold fsDel at ih ⊢
      rw [List.filter_cons]
      simp only [hp, Bool.not_false, if_true]
      unfold fsGet at ih ⊢
      rw [List.find?_cons_of_neg]
      · exact ih
      · simp [hp]

theorem fsGet_fsDel_ne (fs : FS) (p q : Str) (h : p ≠ q) :
    fsGet (fsDel fs p) q = fsGet fs q := by
  simp [fsGet, fsDel, find?_filter_ne fs p q h]

/-! ### Dictionary lemmas -/

/-- The in-place `f90_bool` pass changes values only: the key list — what
`_find_missing_vars` compares against — is untouched. -/
theorem getDefvars_f90 (d : Dict) :
    getDefvars (d.map (fun kv => (kv.1, f90bool kv.2))) = getDefvars d := by
  induction d with
  | nil => rfl
  | cons kv t ih =>
    simp only [getDefvars, List.map_cons] at ih ⊢
    rw [show ((kv.1, f90bool kv.2) : Str × Value).1 = kv.1 from rfl, ih]

theorem isEmpty_map_f90 (d : Dict) :
    (d.map (fun kv => (kv.1, f90bool kv.2))).isEmpty = d.isEmpty := by
  cases d <;> rfl

/-! ### Normalizer lemmas -/

theorem splitNl_ne_nil (cs : Str) : splitNl cs ≠ [] := by
  cases cs with
  | nil => simp [splitNl]
  | cons c rest =>
    by_cases hc : c = '\n'
    · simp [splitNl, hc]
    · simp only [splitNl, if_neg hc]
      cases splitNl rest <;> simp

/-- Re-joining the lines of `cs` with a `"\n"` after every line yields `cs`
plus exactly one extra final newline: the net effect of every
read-split-rewrite loop in the source on a marker-free text. -/
theorem joinNl_splitNl (cs : Str) : joinNl (splitNl cs) = cs ++ ['\n'] := by
  induction cs with
  | nil => rfl
  | cons c rest ih =>
    by_cases hc : c = '\n'
    · subst hc
      simp only [splitNl, if_pos rfl, joinNl, List.nil_append]
      rw [ih]
      rfl
    · simp only [splitNl, if_neg hc]
      cases hr : splitNl rest with
      | nil => exact absurd hr (splitNl_ne_nil rest)
      | cons l ls =>
        rw [hr] at ih
        simp only [joinNl] at ih ⊢
        simp only [List.cons_append, ih]

/-- A line in which no catalog marker pair occurs is passed through
unchanged by the normalizer. -/
theorem normLine_id_of_no_match (line : Str)
    (h : ∀ item ∈ TMPL_ITEM_LIST,
      (hasSub line (tmplSplit item).1 && hasSub line (tmplSplit item).2) = false) :
    normLine line = line := by
  unfold normLine
  rw [List.find?_eq_none.mpr (fun item hi => by simp [h item hi])]

/-! ### Claim C2 -/

/-- C2 (amended): on the template `"NAME1={{ NAME1 }}\nNAME2={{ NAME2 }}\n"`
with mapping `{NAME1: "ham", NAME2: "eggs"}` and `fail_missing=True`,
`write_from_template` succeeds and writes exactly
`"NAME1=ham\nNAME2=eggs"` — without the final newline, because the default
Jinja2 environment (`keep_trailing_newline=False`) strips the template's
single trailing newline before rendering. -/
theorem c2_exact_output :
    (writeFromTemplate jinja2Backend pVirt pTmpl pOut hamEggsDict
        true false false false [(pTmpl, jinja2TestTemplate)]).err = none
      ∧ fsGet (writeFromTemplate jinja2Backend pVirt pTmpl pOut hamEggsDict
          true false false false [(pTmpl, jinja2TestTemplate)]).fs pOut
        = some (pys "NAME1=ham\nNAME2=eggs") := by decide

/-- C2 counterexample: the run writes `"NAME1=ham\nNAME2=eggs"`, which is
not the claimed text `"NAME1=ham\nNAME2=eggs\n"`. -/
theorem c2_counterexample :
    fsGet (writeFromTemplate jinja2Backend pVirt pTmpl pOut hamEggsDict
        true false false false [(pTmpl, jinja2TestTemplate)]).fs pOut
      = some (pys "NAME1=ham\nNAME2=eggs")
      ∧ pys "NAME1=ham\nNAME2=eggs" ≠ pys "NAME1=ham\nNAME2=eggs\n" := by decide

/-! ### Claim C7 -/

/-- C7 (amended): `_replace_tmplmarkers` is not idempotent.  What does hold:
a line in which no catalog marker pair occurs is passed through unchanged;
on a template all of whose lines are such, one pass appends exactly one
newline to the text (so a second pass appends another — the transform can
never be idempotent); and a line already in canonical `{{ name }}` syntax is
*not* left unchanged but rewritten to `{{  name  }}` (the catalog's last
entry matches it, and replacing `"{{"` by `"{{ "` and `"}}"` by `" }}"`
widens the delimiters by one space on every pass). -/
theorem c7_normalizer_not_idempotent :
    (∀ line : Str, (∀ item ∈ TMPL_ITEM_LIST,
        (hasSub line (tmplSplit item).1 && hasSub line (tmplSplit item).2) = false) →
      normLine line = line)
    ∧ (∀ content : Str, (∀ line ∈ splitNl content, ∀ item ∈ TMPL_ITEM_LIST,
        (hasSub line (tmplSplit item).1 && hasSub line (tmplSplit item).2) = false) →
      replaceTmplMarkersText content = content ++ ['\n'])
    ∧ normLine aliasTemplate = pys "A=\x7b\x7b  A  \x7d\x7d" := by
  refine ⟨fun line h => normLine_id_of_no_match line h, fun content h => ?_, by decide⟩
  unfold replaceTmplMarkersText
  rw [show (splitNl content).map normLine = splitNl content by
        rw [List.map_congr_left (fun line hl => normLine_id_of_no_match line (h line hl))]
        exact List.map_id _]
  exact joinNl_splitNl content

/-- C7 witness: the hypotheses of the amended theorem are satisfiable — a
marker-free line and a marker-free one-line template, with the expected
outputs. -/
theorem c7_witness :
    normLine (pys "hello") = pys "hello"
      ∧ replaceTmplMarkersText (pys "hello") = pys "hello" ++ ['\n'] :=
  ⟨c7_normalizer_not_idempotent.1 (pys "hello") (by decide),
   c7_normalizer_not_idempotent.2.1 (pys "hello") (by decide)⟩

/-- C7 counterexample: normalization is not a no-op on canonical templates
(`"A={{ A }}"` becomes `"A={{  A  }}\n"`), and `normalize ∘ normalize`
differs from `normalize` already on the empty template
(`"\n\n"` vs `"\n"`). -/
theorem c7_counterexample :
    replaceTmplMarkersText (replaceTmplMarkersText (pys ""))
        ≠ replaceTmplMarkersText (pys "")
      ∧ replaceTmplMarkersText aliasTemplate ≠ aliasTemplate := by decide

/-! ### Claim C8 -/

/-- C8: the fallback textual scan of `_get_template_vars` crashes with a raw
`ValueError` on a line containing the close delimiter `"}}"` but no open
delimiter `"{{"`.  The guard `(start_str and stop_str in item)` tests only
`"}}" in item` (operator precedence: `start_str` is a non-empty, hence
truthy, string), so the line is selected and `item.index("{{")` raises.
This theorem evaluates the code at the failing input, both at the
variable-discovery stage and through a full `write_from_template` call. -/
theorem c8_fallback_value_error :
    getTemplateVars jinja2Backend strayCloseTemplate
        = .error (.valueError (pys "substring not found"))
      ∧ (writeFromTemplate jinja2Backend pVirt pTmpl pOut yDict
          false false false false [(pTmpl, strayCloseTemplate)]).err
        = some (.valueError (pys "substring not found")) := by decide

/-! ### Claim C1 -/

/-- C1 (amended): for every template and non-empty mapping for which
variable discovery succeeds and leaves a non-empty missing list, calling
`write_from_template` with `fail_missing=True` raises a
`Jinja2InterfaceError` whose message (`missingMsg`) names every missing
variable — the message is built from the missing names alone and never
contains the template path — and the file system is left exactly as it was:
the output file is neither created nor modified.  (Stated for
`rpl_tmpl_mrks=False`; the caller's dictionary still undergoes the
`f90_bool` in-place pass before the failure.) -/
theorem c1_fail_missing_raises (B : Backend) (virtPath tmplPath outputFile : Str)
    (inDict : Dict) (f90Bool skipMissing : Bool) (fs0 : FS) (content : Str)
    (vs : List Str)
    (hc : fsGet fs0 tmplPath = some content)
    (hd : inDict.isEmpty = false)
    (hv : getTemplateVars B content = .ok vs)
    (hne : (vs.filter (fun v => !memStr v (getDefvars inDict))).isEmpty = false) :
    writeFromTemplate B virtPath tmplPath outputFile inDict true false f90Bool skipMissing fs0
      = ⟨fs0, if f90Bool then inDict.map (fun kv => (kv.1, f90bool kv.2)) else inDict,
          some (.jinja2Error (missingMsg
            (vs.filter (fun v => !memStr v (getDefvars inDict)))))⟩
      ∧ ∀ v ∈ vs.filter (fun v => !memStr v (getDefvars inDict)),
          hasSub (missingMsg (vs.filter (fun v => !memStr v (getDefvars inDict)))) v
            = true := by
  refine ⟨?_, fun v hmem => hasSub_missingMsg _ v hmem⟩
  have hd1 : (if f90Bool then inDict.map (fun kv => (kv.1, f90bool kv.2)) else inDict).isEmpty
      = false := by
    cases f90Bool <;> simp [isEmpty_map_f90, hd]
  have hkeys : getDefvars (if f90Bool then inDict.map (fun kv => (kv.1, f90bool kv.2)) else inDict)
      = getDefvars inDict := by
    cases f90Bool <;> simp [getDefvars_f90]
  have hfm : findMissingVars B (some content)
      (if f90Bool then inDict.map (fun kv => (kv.1, f90bool kv.2)) else inDict) true
      = .error (.jinja2Error (missingMsg
          (vs.filter (fun v => !memStr v (getDefvars inDict))))) := by
    simp only [findMissingVars, hd1, Bool.false_eq_true, if_false, hv, hkeys]
    simp [hne]
  simp only [writeFromTemplate, Bool.false_eq_true, if_false, hc, hfm]

/-- C1 witness: the spec's concrete fail-policy scenario — mapping
`{NAME1: "ham"}` against the two-variable template — instantiates the
amended theorem: the run raises with `NAME2` named in the message and the
file system (in particular the output path) untouched. -/
theorem c1_witness :
    writeFromTemplate jinja2Backend pVirt pTmpl pOut hamOnlyDict
        true false false false [(pTmpl, jinja2TestTemplate)]
      = ⟨[(pTmpl, jinja2TestTemplate)], hamOnlyDict,
          some (.jinja2Error (missingMsg
            (([pys "NAME1", pys "NAME2"]).filter
              (fun v => !memStr v (getDefvars hamOnlyDict)))))⟩
      ∧ ∀ v ∈ ([pys "NAME1", pys "NAME2"]).filter
            (fun v => !memStr v (getDefvars hamOnlyDict)),
          hasSub (missingMsg (([pys "NAME1", pys "NAME2"]).filter
            (fun v => !memStr v (getDefvars hamOnlyDict)))) v = true :=
  c1_fail_missing_raises jinja2Backend pVirt pTmpl pOut hamOnlyDict false false
    [(pTmpl, jinja2TestTemplate)] jinja2TestTemplate [pys "NAME1", pys "NAME2"]
    (by decide) (by decide) (by decide) (by decide)

/-- C1 counterexample: in the spec's concrete scenario the raised message is
`missingMsg [NAME2]`, and the template path `tpath.tmpl` does *not* occur in
it — the claim's requirement that the message name the template path fails. -/
theorem c1_counterexample :
    (writeFromTemplate jinja2Backend pVirt pTmpl pOut hamOnlyDict
        true false false false [(pTmpl, jinja2TestTemplate)]).err
      = some (.jinja2Error (missingMsg [pys "NAME2"]))
      ∧ hasSub (missingMsg [pys "NAME2"]) pTmpl = false := by decide

/-! ### Claim C4 -/

/-- C4 (amended): for every *delimiter-free* template (one containing none
of the four Jinja2 delimiter tokens `"{{"`, `"}}"`, `"{%"`, `"{#"` —
the domain on which the flat back-end model agrees with real Jinja2, since
such a text lexes entirely as literal characters) and non-empty value
mapping, `write_from_template` succeeds and writes the template text with a
single trailing newline stripped if present (the default Jinja2
environment's `keep_trailing_newline=False`); an *empty* value mapping, by
contrast, is always fatal — `_find_missing_vars` raises on it before even
reading the template, for every template and policy alike, not only when
the template requires a variable.  A template free of *placeholders* but
not of delimiters is outside this statement: real Jinja2 raises
`TemplateSyntaxError` on a malformed statement such as `{% bork %}` and
strips a comment `{# c #}` from the output, so the verbatim-output claim
cannot be extended to those texts. -/
theorem c4_no_placeholder_render (virtPath tmplPath outputFile : Str) (inDict : Dict)
    (failMissing f90Bool : Bool) (fs0 : FS) (content : Str)
    (hc : fsGet fs0 tmplPath = some content)
    (hob : hasSub content (pys "\x7b\x7b") = false)
    (hcb : hasSub content (pys "\x7d\x7d") = false)
    (_hst : hasSub content (pys "\x7b%") = false)
    (_hcm : hasSub content (pys "\x7b#") = false)
    (hd : inDict.isEmpty = false) :
    ((writeFromTemplate jinja2Backend virtPath tmplPath outputFile inDict
        failMissing false f90Bool false fs0).err = none
      ∧ fsGet (writeFromTemplate jinja2Backend virtPath tmplPath outputFile inDict
          failMissing false f90Bool false fs0).fs outputFile = some (stripNl content))
    ∧ ∀ (B : Backend) (vp tp out : Str) (fm f9 sk : Bool) (fs : FS),
        writeFromTemplate B vp tp out [] fm false f9 sk fs
          = ⟨fs, [], some (.jinja2Error emptyDictMsg)⟩ := by
  constructor
  · have hd1 : (if f90Bool then inDict.map (fun kv => (kv.1, f90bool kv.2)) else inDict).isEmpty
        = false := by
      cases f90Bool <;> simp [isEmpty_map_f90, hd]
    have hlines : ∀ line ∈ splitNl content, hasSub line (pys "\x7d\x7d") = false := by
      intro line hl
      cases hx : hasSub line (pys "\x7d\x7d") with
      | false => rfl
      | true => rw [hasSub_of_mem_splitNl content line _ hl hx] at hcb; cases hcb
    have hv : getTemplateVars jinja2Backend content = .ok [] := by
      simp [getTemplateVars, jinja2Backend, fallbackLines_ok_nil _ hlines]
    have hfm : findMissingVars jinja2Backend (some content)
        (if f90Bool then inDict.map (fun kv => (kv.1, f90bool kv.2)) else inDict) failMissing
        = .ok [] := by
      simp [findMissingVars, hd1, hv]
    have hpo : jinja2Backend.parseOk content = true := by
      show wellFormedAux (content.length + 1) content = true
      exact wellFormedAux_no_open content.length content hob
    have hrd : jinja2Backend.render content
        (if f90Bool then inDict.map (fun kv => (kv.1, f90bool kv.2)) else inDict)
        = .ok (stripNl content) := by
      show jinja2RenderText content _ = .ok (stripNl content)
      unfold jinja2RenderText
      exact substRegionsAux_no_open _ (stripNl content).length (stripNl content)
        (hasSub_stripNl_false content (pys "\x7b\x7b") hob)
    have hrs : renderStage jinja2Backend tmplPath outputFile
        (if f90Bool then inDict.map (fun kv => (kv.1, f90bool kv.2)) else inDict) fs0
        = (fsSet (fsSet fs0 outputFile []) outputFile (stripNl content), none) := by
      simp [renderStage, hc, hpo, hrd]
    simp [writeFromTemplate, hc, hfm, hrs, fsGet_fsSet_self]
  · intro B vp tp out fm f9 sk fs
    cases f9 <;> simp [writeFromTemplate, findMissingVars]

/-- C4 witness: the delimiter-free template `"hello\n"` with the non-empty
mapping `{NAME1: "ham"}` renders successfully to `"hello"`, and the empty
mapping on the same template raises the empty-dictionary error. -/
theorem c4_witness :
    ((writeFromTemplate jinja2Backend pVirt pTmpl pOut hamOnlyDict
        true false false false [(pTmpl, pys "hello\n")]).err = none
      ∧ fsGet (writeFromTemplate jinja2Backend pVirt pTmpl pOut hamOnlyDict
          true false false false [(pTmpl, pys "hello\n")]).fs pOut
        = some (stripNl (pys "hello\n")))
    ∧ writeFromTemplate jinja2Backend pVirt pTmpl pOut []
        true false false false [(pTmpl, pys "hello\n")]
      = ⟨[(pTmpl, pys "hello\n")], [], some (.jinja2Error emptyDictMsg)⟩ := by
  have h := c4_no_placeholder_render pVirt pTmpl pOut hamOnlyDict true false
    [(pTmpl, pys "hello\n")] (pys "hello\n") (by decide) (by decide) (by decide)
    (by decide) (by decide) (by decide)
  exact ⟨h.1, h.2 jinja2Backend pVirt pTmpl pOut true false false [(pTmpl, pys "hello\n")]⟩

/-- C4 counterexample: the claim says a template with no placeholders
renders successfully for *any* mapping including the empty one; on the
placeholder-free template `"hello\n"` (it contains no delimiter at all) the
empty mapping makes the call raise `Jinja2InterfaceError` instead. -/
theorem c4_counterexample :
    (writeFromTemplate jinja2Backend pVirt pTmpl pOut []
        false false false false [(pTmpl, pys "hello\n")]).err
      = some (.jinja2Error emptyDictMsg)
      ∧ hasSub (pys "hello\n") (pys "\x7b\x7b") = false
      ∧ hasSub (pys "hello\n") (pys "\x7d\x7d") = false
      ∧ hasSub (pys "hello\n") (pys "\x7b%") = false
      ∧ hasSub (pys "hello\n") (pys "\x7b#") = false := by decide

/-! ### Claim C5 -/

/-- C5 (amended): whenever the back end raises *during rendering* (the
template compiled, so the output file has already been opened with mode
`"w"`), `write_from_template` raises a single `Jinja2InterfaceError` whose
message carries the output path and the underlying error text — but no
partial output protection exists: `open(output_file, "w")` runs before
`tmpl.render(...)` is evaluated, so the destination file has been created
or truncated to empty, and the file's prior state is lost rather than
preserved.  (Stated for an arbitrary back end, `rpl_tmpl_mrks=False`,
`f90_bool=False`, `skip_missing=False`.) -/
theorem c5_render_failure_truncates (B : Backend) (virtPath tmplPath outputFile : Str)
    (inDict : Dict) (failMissing : Bool) (fs0 : FS) (content : Str)
    (missing : List Str) (e : Str)
    (hc : fsGet fs0 tmplPath = some content)
    (hfm : findMissingVars B (some content) inDict failMissing = .ok missing)
    (hpo : B.parseOk content = true)
    (hrd : B.render content inDict = .error e) :
    writeFromTemplate B virtPath tmplPath outputFile inDict failMissing false false false fs0
      = ⟨fsSet fs0 outputFile [], inDict,
          some (.jinja2Error (renderFailMsg outputFile e))⟩
      ∧ hasSub (renderFailMsg outputFile e) outputFile = true
      ∧ hasSub (renderFailMsg outputFile e) e = true := by
  refine ⟨?_, hasSub_renderFailMsg_path outputFile e, hasSub_renderFailMsg_err outputFile e⟩
  have hrs : renderStage B tmplPath outputFile inDict fs0
      = (fsSet fs0 outputFile [], some (.jinja2Error (renderFailMsg outputFile e))) := by
    simp [renderStage, hc, hpo, hrd]
  simp [writeFromTemplate, hc, hfm, hrs]

/-- C5 witness: the template `"{{ X + 1 }}\n"` with mapping `{Y: "y"}` under
the warn policy compiles, truncates the output file, and then fails at
render time (`X` is unbound inside an expression), leaving the wrapped
error and an emptied destination. -/
theorem c5_witness :
    writeFromTemplate jinja2Backend pVirt pTmpl pOut yDict false false false false
        [(pTmpl, renderFailTemplate), (pOut, pys "old")]
      = ⟨fsSet [(pTmpl, renderFailTemplate), (pOut, pys "old")] pOut [], yDict,
          some (.jinja2Error (renderFailMsg pOut
            (pys "UndefinedError: unable to evaluate X + 1")))⟩
      ∧ hasSub (renderFailMsg pOut (pys "UndefinedError: unable to evaluate X + 1"))
          pOut = true
      ∧ hasSub (renderFailMsg pOut (pys "UndefinedError: unable to evaluate X + 1"))
          (pys "UndefinedError: unable to evaluate X + 1") = true :=
  c5_render_failure_truncates jinja2Backend pVirt pTmpl pOut yDict false
    [(pTmpl, renderFailTemplate), (pOut, pys "old")] renderFailTemplate
    [pys "X + 1"] (pys "UndefinedError: unable to evaluate X + 1")
    (by decide) (by decide) (by decide) (by decide)

/-- C5 counterexample: before the failing render the destination held
`"old"`; after the run it holds the empty string — the file's prior state
is not preserved, refuting the claim's "either the full rendered text is
written or the file's prior state is unchanged". -/
theorem c5_counterexample :
    (writeFromTemplate jinja2Backend pVirt pTmpl pOut yDict false false false false
        [(pTmpl, renderFailTemplate), (pOut, pys "old")]).err
      = some (.jinja2Error (renderFailMsg pOut
          (pys "UndefinedError: unable to evaluate X + 1")))
      ∧ fsGet (writeFromTemplate jinja2Backend pVirt pTmpl pOut yDict
          false false false false
          [(pTmpl, renderFailTemplate), (pOut, pys "old")]).fs pOut = some []
      ∧ (some ([] : Str) ≠ some (pys "old")) := by decide

/-! ### Claim C6 -/

/-- C6 (amended): the temporary normalized copy (`rpl_tmpl_mrks=True`) or
the in-place rewritten template (`skip_missing=True`) is deleted *only on
the success path*: the `os.unlink` at the end of `write_from_template` runs
after the `try` block, so when the call returns without raising and either
flag is set, the (possibly rewritten) template path has been unlinked.  On
the failure exit paths — missing-variable failure under the fail policy, or
a back-end failure — the exception propagates before the unlink, and the
artifact is left behind (see the counterexample). -/
theorem c6_cleanup_only_on_success (B : Backend) (virtPath tmplPath outputFile : Str)
    (inDict : Dict) (failMissing rplTmplMrks f90Bool skipMissing : Bool) (fs0 : FS)
    (hsucc : (writeFromTemplate B virtPath tmplPath outputFile inDict
        failMissing rplTmplMrks f90Bool skipMissing fs0).err = none)
    (hflag : (rplTmplMrks || skipMissing) = true) :
    fsGet (writeFromTemplate B virtPath tmplPath outputFile inDict
        failMissing rplTmplMrks f90Bool skipMissing fs0).fs
      (if rplTmplMrks then virtPath else tmplPath) = none := by
  cases rplTmplMrks with
  | false =>
    have hskip : skipMissing = true := by simpa using hflag
    subst hskip
    unfold writeFromTemplate at hsucc ⊢
    cases hg : fsGet fs0 tmplPath with
    | none =>
      cases hde : (if f90Bool then inDict.map (fun kv => (kv.1, f90bool kv.2))
          else inDict).isEmpty with
      | true => simp [hg, findMissingVars, hde] at hsucc
      | false => simp [hg, findMissingVars, hde] at hsucc
    | some content =>
      cases hfm : findMissingVars B (some content)
          (if f90Bool then inDict.map (fun kv => (kv.1, f90bool kv.2)) else inDict)
          failMissing with
      | error e => simp [hg, hfm] at hsucc
      | ok missing =>
        cases hrs : renderStage B tmplPath outputFile
            (if f90Bool then inDict.map (fun kv => (kv.1, f90bool kv.2)) else inDict)
            (fsSet fs0 tmplPath (skipRewriteText content missing)) with
        | mk fs3 oe =>
          cases oe with
          | some e => simp [hg, hfm, hrs] at hsucc
          | none => simp [hg, hfm, hrs, fsGet_fsDel_self]
  | true =>
    unfold writeFromTemplate at hsucc ⊢
    cases hg : fsGet fs0 tmplPath with
    | none => simp [hg] at hsucc
    | some content =>
      cases hfm : findMissingVars B (some (replaceTmplMarkersText content))
          (if f90Bool then inDict.map (fun kv => (kv.1, f90bool kv.2)) else inDict)
          failMissing with
      | error e => simp [hg, fsGet_fsSet_self, hfm] at hsucc
      | ok missing =>
        cases skipMissing with
        | false =>
          cases hrs : renderStage B virtPath outputFile
              (if f90Bool then inDict.map (fun kv => (kv.1, f90bool kv.2)) else inDict)
              (fsSet fs0 virtPath (replaceTmplMarkersText content)) with
          | mk fs3 oe =>
            cases oe with
            | some e => simp [hg, fsGet_fsSet_self, hfm, hrs] at hsucc
            | none => simp [hg, fsGet_fsSet_self, hfm, hrs, fsGet_fsDel_self]
        | true =>
          cases hrs : renderStage B virtPath outputFile
              (if f90Bool then inDict.map (fun kv => (kv.1, f90bool kv.2)) else inDict)
              (fsSet (fsSet fs0 virtPath (replaceTmplMarkersText content)) virtPath
                (skipRewriteText (replaceTmplMarkersText content) missing)) with
          | mk fs3 oe =>
            cases oe with
            | some e => simp [hg, fsGet_fsSet_self, hfm, hrs] at hsucc
            | none => simp [hg, fsGet_fsSet_self, hfm, hrs, fsGet_fsDel_self]

/-- C6 witness: a successful `skip_missing` run (the spec's skip scenario)
really does unlink the rewritten template path. -/
theorem c6_witness :
    fsGet (writeFromTemplate jinja2Backend pVirt pTmpl pOut hamOnlyDict
        false false false true [(pTmpl, jinja2TestTemplate)]).fs
      (if false then pVirt else pTmpl) = none :=
  c6_cleanup_only_on_success jinja2Backend pVirt pTmpl pOut hamOnlyDict
    false false false true [(pTmpl, jinja2TestTemplate)] (by decide) (by decide)

/-- C6 counterexample: with `rpl_tmpl_mrks=True` and `fail_missing=True` on
the bracket-marker template `"A=[@A]\n"` and a mapping lacking `A`, the call
raises at the missing-variable stage and the temporary normalized copy at
the virtual path is left on disk (holding `"A={{ A }}\n\n"`), refuting the
claim that the artifact is deleted on every exit path. -/
theorem c6_counterexample :
    (writeFromTemplate jinja2Backend pVirt pTmpl pOut bDict
        true true false false [(pTmpl, bracketTemplate)]).err
      = some (.jinja2Error (missingMsg [pys "A"]))
      ∧ fsGet (writeFromTemplate jinja2Backend pVirt pTmpl pOut bDict
          true true false false [(pTmpl, bracketTemplate)]).fs pVirt
        = some (pys "A=\x7b\x7b A \x7d\x7d\n\n") := by decide

/-! ### Claim C9 -/

/-- C9 (amended): under `f90_bool=False` the caller's dictionary object is
never mutated; under `f90_bool=True` the adaptation is *not* applied to a
transient copy — the loop `in_dict[key] = f90_bool(value)` rewrites the
caller's own dictionary in place, so after the call (whatever its outcome
past that point) the caller's mapping holds `"T"`/`"F"` strings where it
held booleans.  (The `f90_bool=True` part is stated for
`rpl_tmpl_mrks=False`; with `rpl_tmpl_mrks=True` the same rewrite happens
once marker replacement has succeeded.) -/
theorem c9_dict_mutation (B : Backend) (virtPath tmplPath outputFile : Str)
    (inDict : Dict) (failMissing rplTmplMrks skipMissing : Bool) (fs0 : FS) :
    (writeFromTemplate B virtPath tmplPath outputFile inDict
        failMissing rplTmplMrks false skipMissing fs0).dict = inDict
    ∧ (writeFromTemplate B virtPath tmplPath outputFile inDict
        failMissing false true skipMissing fs0).dict
      = inDict.map (fun kv => (kv.1, f90bool kv.2)) := by
  constructor <;>
    (unfold writeFromTemplate
     simp only [Bool.false_eq_true, eq_self_iff_true, if_false, if_true]
     repeat (first | rfl | split))

/-- C9 counterexample: with `f90_bool=True` and the mapping `{X: True}`,
after the call the caller's dictionary holds `{X: "T"}` — not its original
boolean value — refuting the claim that the mapping is never mutated. -/
theorem c9_counterexample :
    (writeFromTemplate jinja2Backend pVirt pTmpl pOut boolDict
        false false true false [(pTmpl, xBoolTemplate)]).dict
      = [(pys "X", Value.vstr (pys "T"))]
      ∧ [(pys "X", Value.vstr (pys "T"))] ≠ boolDict := by decide

/-! ### Claim C10 -/

/-- Frame property of the `try` block: the render stage writes only to the
output path. -/
theorem renderStage_fsGet_ne (B : Backend) (tp outputFile p : Str) (d : Dict)
    (fs : FS) (hne : p ≠ outputFile) :
    fsGet (renderStage B tp outputFile d fs).1 p = fsGet fs p := by
  unfold renderStage
  cases hg : fsGet fs tp with
  | none => rfl
  | some content =>
    by_cases hp : B.parseOk content = true
    · simp only [hp, if_true]
      cases hr : B.render content d with
      | ok o =>
        simp [fsGet_fsSet_ne _ _ _ _ (Ne.symm hne)]
      | error e =>
        simp [fsGet_fsSet_ne _ _ _ _ (Ne.symm hne)]
    · simp [hp]

/-- C10 (amended): with `rpl_tmpl_mrks=False` and `skip_missing=False`, and
*provided the output path is a different file than the template path*, the
template file is only read: whatever the outcome, its file-system entry is
unchanged.  The proviso is forced: `open(output_file, "w")` truncates and
rewrites whatever file `output_file` names, so an aliased call
(`output_file == tmpl_path`) overwrites the template (see the
counterexample). -/
theorem c10_template_read_only (B : Backend) (virtPath tmplPath outputFile : Str)
    (inDict : Dict) (failMissing f90Bool : Bool) (fs0 : FS)
    (hne : tmplPath ≠ outputFile) :
    fsGet (writeFromTemplate B virtPath tmplPath outputFile inDict
        failMissing false f90Bool false fs0).fs tmplPath = fsGet fs0 tmplPath := by
  unfold writeFromTemplate
  simp only [Bool.false_eq_true, if_false]
  cases hfm : findMissingVars B (fsGet fs0 tmplPath)
      (if f90Bool then inDict.map (fun kv => (kv.1, f90bool kv.2)) else inDict)
      failMissing with
  | error e => simp [hfm]
  | ok missing =>
    cases hrs : renderStage B tmplPath outputFile
        (if f90Bool then inDict.map (fun kv => (kv.1, f90bool kv.2)) else inDict) fs0 with
    | mk fs3 oe =>
      have h3 : fsGet fs3 tmplPath = fsGet fs0 tmplPath := by
        have h := renderStage_fsGet_ne B tmplPath outputFile tmplPath
          (if f90Bool then inDict.map (fun kv => (kv.1, f90bool kv.2)) else inDict) fs0 hne
        rw [hrs] at h
        exact h
      cases oe with
      | some e => simp [hfm, hrs, h3]
      | none => simp [hfm, hrs, h3]

/-- C10 witness: a plain render with distinct template and output paths
leaves the template entry untouched. -/
theorem c10_witness :
    fsGet (writeFromTemplate jinja2Backend pVirt pTmpl pOut axDict
        false false false false [(pTmpl, aliasTemplate)]).fs pTmpl
      = fsGet [(pTmpl, aliasTemplate)] pTmpl :=
  c10_template_read_only jinja2Backend pVirt pTmpl pOut axDict false false
    [(pTmpl, aliasTemplate)] (by decide)

/-- C10 counterexample: when the caller passes `output_file == tmpl_path`,
the run succeeds and the template file has been overwritten with the
rendered output (`"A=x"` instead of `"A={{ A }}"`): the claim's "never
rewrites, truncates, or deletes" does not hold for aliased calls. -/
theorem c10_counterexample :
    (writeFromTemplate jinja2Backend pVirt pTmpl pTmpl axDict
        false false false false [(pTmpl, aliasTemplate)]).err = none
      ∧ fsGet (writeFromTemplate jinja2Backend pVirt pTmpl pTmpl axDict
          false false false false [(pTmpl, aliasTemplate)]).fs pTmpl
        = some (pys "A=x")
      ∧ pys "A=x" ≠ aliasTemplate := by decide

/-! ### Claim C3 -/

/-- C3 (amended): under `skip_missing=True` every line of the pruned
template fed to the renderer is free of every (non-empty) missing variable
name — dropped lines never appear and no partial line survives — and the
spec's concrete scenario holds: the template
`"NAME1={{ NAME1 }}\nNAME2={{ NAME2 }}\n"` with mapping `{NAME1: "ham"}`
renders to exactly `"NAME1=ham\n"`.  The stronger claim that no *output*
line ever contains a missing name as a substring fails: a substituted
*value* may itself contain a missing variable's name (see the
counterexample). -/
theorem c3_skip_prunes_missing_lines :
    (∀ (content : Str) (missing : List Str) (line : Str),
        line ∈ keptLines content missing →
        ∀ mv ∈ missing, mv ≠ [] → hasSub line mv = false)
    ∧ (writeFromTemplate jinja2Backend pVirt pTmpl pOut hamOnlyDict
        false false false true [(pTmpl, jinja2TestTemplate)]).err = none
    ∧ fsGet (writeFromTemplate jinja2Backend pVirt pTmpl pOut hamOnlyDict
        false false false true [(pTmpl, jinja2TestTemplate)]).fs pOut
      = some (pys "NAME1=ham\n") := by
  refine ⟨?_, by decide, by decide⟩
  intro content missing line hl mv hmv hne
  have hp := List.of_mem_filter hl
  simp only [Bool.not_eq_true'] at hp
  unfold dropLine at hp
  rw [List.any_eq_false] at hp
  have hmv2 := hp mv hmv
  cases hx : hasSub line mv with
  | false => rfl
  | true =>
    rw [hx] at hmv2
    have hie : mv.isEmpty = false := by
      cases mv with
      | nil => exact absurd rfl hne
      | cons a as => rfl
    rw [hie] at hmv2
    simp at hmv2

/-- C3 witness: in the spec's skip scenario the surviving template line
`"NAME1={{ NAME1 }}"` (a member of the kept lines) contains no occurrence
of the missing name `NAME2`. -/
theorem c3_witness :
    hasSub (pys "NAME1=\x7b\x7b NAME1 \x7d\x7d") (pys "NAME2") = false :=
  c3_skip_prunes_missing_lines.1 jinja2TestTemplate [pys "NAME2"]
    (pys "NAME1=\x7b\x7b NAME1 \x7d\x7d") (by decide) (pys "NAME2") (by decide)
    (by decide)

/-- C3 counterexample: template `"A={{ A }}\nB={{ B }}\n"` with mapping
`{A: "B"}` under `skip_missing=True`: `B` is the missing variable, the call
succeeds, and the output is `"A=B\n"` — whose line `"A=B"` *does* contain
the missing name `B` as a substring (the substituted value reintroduced
it), refuting the claim's universal no-missing-substring property. -/
theorem c3_counterexample :
    findMissingVars jinja2Backend (some abTemplate) abDict false = .ok [pys "B"]
      ∧ (writeFromTemplate jinja2Backend pVirt pTmpl pOut abDict
          false false false true [(pTmpl, abTemplate)]).err = none
      ∧ fsGet (writeFromTemplate jinja2Backend pVirt pTmpl pOut abDict
          false false false true [(pTmpl, abTemplate)]).fs pOut
        = some (pys "A=B\n")
      ∧ (pys "A=B") ∈ splitNl (pys "A=B\n")
      ∧ hasSub (pys "A=B") (pys "B") = true := by decide
